import Mathlib

/-!
Verification development for the release-notes decision pipeline
(`src/rn/filtering.py`, `src/rn/filtering_llm.py`, `src/rn/schema.py`,
`src/rn/review.py`, `src/rn/render.py`, `main.py`).

Modelling conventions:
* Python dicts flowing through the pipeline are modelled as the `Item`
  structure whose fields are `Option`-valued; `none` stands for
  "key absent or value `None`" (the code only ever reads these keys via
  `dict.get`, which conflates the two).
* Python truthiness of optional strings (`if x:` / `x or y`) is modelled by
  `truthyS` / `pyOrS` (`None` and `""` are falsy).
* `re` patterns are compiled to executable character-list matchers
  (ASCII model of `\s`, `\w`, `\d`, case folding).
* Float confidence literals (0.75 / 0.85 / 0.9 / 0.95) are stored in
  hundredths (`Nat`), since the code never does arithmetic on them.
* The LLM oracle (`chat_json`) is an external capability; it is modelled
  as a parameter `Item → OraclePayload` giving the raw payload the oracle
  returns for each record. Pydantic validation of that payload is
  `model_validate`, and Python exceptions are `Except.error`.
-/

namespace ReleaseNotes

/-- Python truthiness for an optional string: `None`, absent and `""` are falsy. -/
def truthyS : Option String → Bool
  | none => false
  | some s => !s.isEmpty

/-- Python `a or b` on optional strings (returns `b` whenever `a` is falsy). -/
def pyOrS (a b : Option String) : Option String :=
  if truthyS a then a else b

/-- Python `x or d` where `d` is a plain default string. -/
def pyOrDefault (o : Option String) (d : String) : String :=
  match o with
  | none => d
  | some s => if s.isEmpty then d else s

/-- Python `(x or "")` used before `.strip()` in the source. -/
def pyStrOr (o : Option String) : String := pyOrDefault o ""

/-- ASCII model of the `re` class `\s` (Python: space, tab, LF, CR, VT, FF). -/
def isPySpace (c : Char) : Bool :=
  c = ' ' || c = '\t' || c = '\n' || c = '\r' || c = '\x0b' || c = '\x0c'

/-- ASCII model of Python `str.strip()` (drop leading and trailing whitespace). -/
def pyStrip (s : String) : String :=
  String.mk (((s.toList.dropWhile isPySpace).reverse.dropWhile isPySpace).reverse)

/-- ASCII model of Python `str.lower()`. -/
def pyLower (s : String) : String :=
  String.mk (s.toList.map Char.toLower)

/-- ASCII model of the `re` class `\w`: letters, digits, underscore. -/
def isWordCh (c : Char) : Bool := c.isAlphanum || c = '_'

/-- Case-insensitive "starts with" on character lists (model of `re.IGNORECASE`). -/
def startsWithCI : List Char → List Char → Bool
  | [], _ => true
  | _ :: _, [] => false
  | p :: ps, c :: cs => (p.toLower = c.toLower) && startsWithCI ps cs

/-- Drop a case-insensitive literal pattern from the front of the text, if present. -/
def dropCI : List Char → List Char → Option (List Char)
  | [], t => some t
  | _ :: _, [] => none
  | p :: ps, c :: cs => if p.toLower = c.toLower then dropCI ps cs else none

/-- Consume `\s+` (at least one whitespace character, greedily). -/
def spaces1 : List Char → Option (List Char)
  | [] => none
  | c :: cs => if isPySpace c then some (cs.dropWhile isPySpace) else none

/-- Consume `\d+` (at least one digit, greedily). -/
def digits1 : List Char → Option (List Char)
  | [] => none
  | c :: cs => if c.isDigit then some (cs.dropWhile Char.isDigit) else none

/-- Case-sensitive list "starts with" (for Python's `in` substring test). -/
def plainStarts : List Char → List Char → Bool
  | [], _ => true
  | _ :: _, [] => false
  | a :: as, b :: bs => (a = b) && plainStarts as bs

/-- Helper for `containsSubstr` (scan every start position). -/
def substrAux (n : List Char) : List Char → Bool
  | [] => plainStarts n []
  | c :: cs => plainStarts n (c :: cs) || substrAux n cs

/-- Python `needle in hay` substring test (case-sensitive). -/
def containsSubstr (needle hay : String) : Bool :=
  substrAux needle.toList hay.toList

/-- `\bw\b` starting exactly at the head of `t` (the word followed by a boundary);
the caller guarantees the boundary on the left. -/
def startsWordCI (w : List Char) (t : List Char) : Bool :=
  match dropCI w t with
  | none => false
  | some [] => true
  | some (c :: _) => !isWordCh c

/-- Scan all positions for `\bw\b`; `prevWord` tells whether the previous
character was a word character (left boundary test). -/
def searchWordAux (w : List Char) (prevWord : Bool) : List Char → Bool
  | [] => (!prevWord) && startsWordCI w []
  | c :: cs =>
    ((!prevWord) && startsWordCI w (c :: cs)) || searchWordAux w (isWordCh c) cs

/-- Model of `re.search(r"\bw\b", text, re.IGNORECASE)`. -/
def containsWordCI (w : String) (text : String) : Bool :=
  searchWordAux w.toList false text.toList

/-- Model of `re.search(r"^w\b", text, re.IGNORECASE)` (anchored at the start). -/
def startsWordAnchoredCI (w : String) (text : String) : Bool :=
  startsWordCI w.toList text.toList

/-- Model of `MERGE_RE.match(subject)` for
`re.compile(r"^Merge pull request\s+#\d+\s+", re.IGNORECASE)`. -/
def mergeMatch (s : String) : Bool :=
  match dropCI "Merge pull request".toList s.toList with
  | none => false
  | some t1 =>
    match spaces1 t1 with
    | none => false
    | some ('#' :: t3) =>
      match digits1 t3 with
      | none => false
      | some t4 => (spaces1 t4).isSome
    | some _ => false

/-- `detect_type` from `src/rn/filtering.py`: match
`CONVENTIONAL_RE = r"^(?P<type>[a-zA-Z]+)(\([^)]+\))?:\s+"` against
`subject.strip()` and return the lower-cased type token. -/
def detect_type (subject : String) : Option String :=
  let t := (pyStrip subject).toList
  let letters := t.takeWhile Char.isAlpha
  if letters.isEmpty then none
  else
    let rest := t.dropWhile Char.isAlpha
    -- optional `(\([^)]+\))` group: with a `(` present the group must close,
    -- otherwise the following `:` cannot match (the next char is `(`).
    let afterGroup : Option (List Char) :=
      match rest with
      | '(' :: r =>
        let inner := r.takeWhile (fun c => c ≠ ')')
        if inner.isEmpty then none
        else
          match r.dropWhile (fun c => c ≠ ')') with
          | ')' :: r3 => some r3
          | _ => none
      | _ => some rest
    match afterGroup with
    | none => none
    | some (':' :: r4) =>
      match r4 with
      | c :: _ => if isPySpace c then some (String.mk (letters.map Char.toLower)) else none
      | [] => none
    | some _ => none

/-- One entry of the exclude-pattern lists of `src/rn/filtering.py`.
All of them have one of the two shapes `\bw\b` (searched anywhere) or
`^w\b` (anchored); the constructor records which. -/
inductive ExcludePattern where
  | word (w : String)
  | anchored (w : String)
deriving DecidableEq, Repr

/-- The regex source text of a pattern (the string stored in the Python lists,
interpolated into the decision reason). -/
def ExcludePattern.regexText : ExcludePattern → String
  | .word w => "\\b" ++ w ++ "\\b"
  | .anchored w => "^" ++ w ++ "\\b"

/-- Whether `re.search(pattern, text, re.IGNORECASE)` finds a match. -/
def ExcludePattern.hits : ExcludePattern → String → Bool
  | .word w, text => containsWordCI w text
  | .anchored w, text => startsWordAnchoredCI w text

/-- `DEFAULT_EXCLUDE_SUBJECT_PATTERNS` of `src/rn/filtering.py`, in list order. -/
def DEFAULT_EXCLUDE_SUBJECT_PATTERNS : List ExcludePattern :=
  [.word "bump", .word "version", .word "release",
   .anchored "chore", .anchored "refactor", .anchored "ci",
   .anchored "test", .anchored "build"]

/-- `DEFAULT_EXCLUDE_BODY_PATTERNS` of `src/rn/filtering.py`. -/
def DEFAULT_EXCLUDE_BODY_PATTERNS : List ExcludePattern :=
  [.word "bump", .word "version"]

/-- `_matches_any` of `src/rn/filtering.py`: return the first matching
pattern's source text, else `None`. -/
def _matches_any (patterns : List ExcludePattern) (text : String) : Option String :=
  match patterns with
  | [] => none
  | p :: ps => if p.hits text then some p.regexText else _matches_any ps text

/-- Whether one file path matches any `SOFT_INTERNAL_FILE_PATTERNS` entry
(`^\.github/`, `^docs?/`, `^test/`, `.*_test\.go$`, all `re.IGNORECASE`). -/
def softInternalFileHit (f : String) : Bool :=
  startsWithCI ".github/".toList f.toList ||
  startsWithCI "docs/".toList f.toList ||
  startsWithCI "doc/".toList f.toList ||
  startsWithCI "test/".toList f.toList ||
  startsWithCI "_test.go".toList.reverse f.toList.reverse

/-- `_soft_internal_files_score` of `src/rn/filtering.py`: fraction of
internal-looking files, in exact rational arithmetic. -/
def _soft_internal_files_score (files : List String) : ℚ :=
  if files.isEmpty then 0
  else ((files.countP softInternalFileHit : ℚ) / (max 1 files.length : ℚ))

/-- `INCLUDE_TYPES = {"feat": "feature", "fix": "bugfix"}` lookup
(`ctype in INCLUDE_TYPES` followed by `INCLUDE_TYPES[ctype]`). -/
def include_types_lookup : Option String → Option String
  | some "feat" => some "feature"
  | some "fix" => some "bugfix"
  | _ => none

/-- `FilterDecision` dataclass of `src/rn/filtering.py`
(confidence in hundredths of the source's float literal). -/
structure FilterDecision where
  «include» : Bool
  reason : String
  stage : String
  confidence : Nat
deriving DecidableEq, Repr

/-- The `annotations` dict built by `rule_based_filter`. A doubly-wrapped
option distinguishes "key absent" (outer `none`) from "key present with value
`None`" (`some none`), which matters for `conventional_type`. -/
structure FilterAnnotations where
  conventional_type : Option (Option String) := none
  suggested_category : Option String := none
  internal_files_score : Option ℚ := none
deriving DecidableEq, Repr

/-- A pipeline item (a Python dict). `none` = key absent or value `None`. -/
structure Item where
  sha : Option String := none
  subject : Option String := none
  body : Option String := none
  files : Option (List String) := none
  author_name : Option String := none
  author_email : Option String := none
  author_date : Option String := none
  url : Option String := none
  «include» : Option Bool := none
  filter_reason : Option String := none
  filter_stage : Option String := none
  filter_confidence : Option Nat := none
  category : Option String := none
  title : Option String := none
  description : Option String := none
  needs_clarification : Option Bool := none
  clarification_question : Option String := none
  review_status : Option String := none
  filter_annotations : Option FilterAnnotations := none
deriving DecidableEq, Repr

/-- `rule_based_filter` of `src/rn/filtering.py`: deterministic classifier.
Returns `(decision_or_none, annotations)`. -/
def rule_based_filter (item : Item) : Option FilterDecision × FilterAnnotations :=
  let subject := pyStrip (pyStrOr item.subject)
  let body := pyStrip (pyStrOr item.body)
  let files := item.files.getD []
  let annotations : FilterAnnotations := {}
  -- 1) hard exclude: merge commits (early return, annotations still empty)
  if mergeMatch subject then
    (some ⟨false, "Excluded merge commit (not user-facing entry).", "rules", 95⟩, annotations)
  else
    -- 2) conventional type signal, stored as an annotation
    let ctype := detect_type subject
    let annotations := { annotations with conventional_type := some ctype }
    -- 4) / 5) shared continuation after the hard-exclude checks
    let step45 : Option FilterDecision × FilterAnnotations :=
      match include_types_lookup ctype with
      | some cat =>
        (some ⟨true, "Included as " ++ cat ++ " (conventional commit).", "rules", 90⟩,
         { annotations with suggested_category := some cat })
      | none =>
        (none, { annotations with internal_files_score := some (_soft_internal_files_score files) })
    -- 3) hard exclude patterns (subject, then body when not clearly feat/fix)
    match _matches_any DEFAULT_EXCLUDE_SUBJECT_PATTERNS subject with
    | some p => (some ⟨false, "Excluded by subject pattern: " ++ p, "rules", 90⟩, annotations)
    | none =>
      match _matches_any DEFAULT_EXCLUDE_BODY_PATTERNS body with
      | some p2 =>
        if !containsSubstr "feat" (ctype.getD "") && !containsSubstr "fix" (ctype.getD "") then
          (some ⟨false, "Excluded by body pattern: " ++ p2, "rules", 85⟩, annotations)
        else step45
      | none => step45





/-- The decided-item update of `filter_candidates` (`it2.update({...})`, decided branch):
annotations, decision fields, and `category = it2.get("category") or
annotations.get("suggested_category")`; `title`/`description` are re-stored unchanged. -/
def mark_decided (it : Item) (d : FilterDecision) (anns : FilterAnnotations) : Item :=
  { it with
    filter_annotations := some anns,
    «include» := some d.«include»,
    filter_reason := some d.reason,
    filter_stage := some d.stage,
    filter_confidence := some d.confidence,
    category := pyOrS it.category anns.suggested_category }

/-- The ambiguous-item update of `filter_candidates`
(`{"include": None, "filter_reason": None, "filter_stage": "rules"}`). -/
def mark_ambiguous (it : Item) (anns : FilterAnnotations) : Item :=
  { it with
    filter_annotations := some anns,
    «include» := none,
    filter_reason := none,
    filter_stage := some "rules" }

/-- `filter_candidates` of `src/rn/filtering.py`: apply `rule_based_filter` to each
item in order, collecting decided and ambiguous items (input order kept in each). -/
def filter_candidates : List Item → List Item × List Item
  | [] => ([], [])
  | it :: rest =>
    let (decision, anns) := rule_based_filter it
    let (ds, ambs) := filter_candidates rest
    match decision with
    | none => (ds, mark_ambiguous it anns :: ambs)
    | some d => (mark_decided it d anns :: ds, ambs)

/-- `LLMDecision` of `src/rn/schema.py` (pydantic model, post-validation shape). -/
structure LLMDecision where
  «include» : Bool
  category : Option String := none
  title : Option String := none
  description : Option String := none
  needs_clarification : Bool := false
  clarification_question : Option String := none
  reason : String
deriving DecidableEq, Repr

/-- The raw structured payload returned by the classification oracle for one
record, before validation (`none` = field absent or JSON `null`; pydantic
treats both the same here since every optional field defaults to `None`). -/
structure OraclePayload where
  «include» : Option Bool := none
  category : Option String := none
  title : Option String := none
  description : Option String := none
  needs_clarification : Option Bool := none
  clarification_question : Option String := none
  reason : Option String := none
deriving DecidableEq, Repr

/-- The `Category = Literal["feature", "bugfix"]` constraint of `src/rn/schema.py`
on the optional `category` field. -/
def categoryLiteralOk : Option String → Bool
  | none => true
  | some c => c = "feature" || c = "bugfix"

/-- `LLMDecision.model_validate(raw)`: pydantic validation of the oracle payload.
Required fields: `include` and `reason` (`Field(...)`); `category` must satisfy
the `Literal` constraint; `needs_clarification` defaults to `False`. The schema
declares NO length constraint on `title` or `description` (the 70/240 limits
appear only in the prompt text of `build_user_prompt`). A failure raises
(`Except.error`). -/
def model_validate (p : OraclePayload) : Except String LLMDecision :=
  match p.«include» with
  | none => .error "validation error: include: Field required"
  | some inc =>
    if !categoryLiteralOk p.category then
      .error "validation error: category: value is not a permitted literal"
    else
      match p.reason with
      | none => .error "validation error: reason: Field required"
      | some r =>
        .ok { «include» := inc,
              category := p.category,
              title := p.title,
              description := p.description,
              needs_clarification := p.needs_clarification.getD false,
              clarification_question := p.clarification_question,
              reason := r }

/-- The per-record body of the loop in `llm_decide_ambiguous`
(`src/rn/filtering_llm.py`): validate the oracle payload, derive
`review_status` (clarification wins over inclusion), and build the updated item. -/
def llm_decide_one (oracle : Item → OraclePayload) (it : Item) : Except String Item := do
  let decision ← model_validate (oracle it)
  let review_status :=
    if decision.needs_clarification then "needs_clarification"
    else if decision.«include» then "included" else "excluded"
  return { it with
    «include» := some decision.«include»,
    filter_stage := some "llm",
    filter_reason := some decision.reason,
    category := decision.category,
    title := decision.title,
    description := decision.description,
    needs_clarification := some decision.needs_clarification,
    clarification_question := decision.clarification_question,
    review_status := some review_status }

/-- `llm_decide_ambiguous` of `src/rn/filtering_llm.py`: resolve each ambiguous
item in input order; the first validation failure aborts the whole call. -/
def llm_decide_ambiguous (oracle : Item → OraclePayload) :
    List Item → Except String (List Item)
  | [] => .ok []
  | it :: rest => do
    let it2 ← llm_decide_one oracle it
    let rest2 ← llm_decide_ambiguous oracle rest
    return it2 :: rest2

/-- The per-item body of `normalize_review_status` (`main.py`): skip items whose
`review_status` is already set (truthy), otherwise resolve in order
clarification flag / include=True / include=False / unknown. -/
def normalize_one (it : Item) : Item :=
  if truthyS it.review_status then it
  else
    let needs_clarification := it.needs_clarification.getD false
    let rs :=
      if needs_clarification then "needs_clarification"
      else
        match it.«include» with
        | some true => "included"
        | some false => "excluded"
        | none => "needs_clarification"
    { it with review_status := some rs }

/-- `normalize_review_status` of `main.py` (in-place mutation modelled as a map). -/
def normalize_review_status (items : List Item) : List Item :=
  items.map normalize_one

/-- `run_pipeline` of `main.py` (harvest is an external collaborator, so the
harvested records are the `items` input). `normalize_review_status(all_items)`
mutates the dicts in place and `decided` aliases the prefix of `all_items`, so
the returned `decided` list is the normalized one. -/
def run_pipeline (oracle : Item → OraclePayload) (items : List Item) :
    Except String (List Item × List Item × List Item) := do
  let (decided, ambiguous) := filter_candidates items
  let llm_results ← if ambiguous.isEmpty then pure [] else llm_decide_ambiguous oracle ambiguous
  let all_items := normalize_review_status (decided ++ llm_results)
  return (normalize_review_status decided, ambiguous, all_items)

/-- One entry of the review manifest (`build_review_manifest` in `src/rn/review.py`). -/
structure ReviewEntry where
  sha : Option String := none
  subject : Option String := none
  author : Option String := none
  url : Option String := none
  review_status : Option String := none
  category : Option String := none
  title : Option String := none
  description : Option String := none
  filter_stage : Option String := none
  filter_reason : Option String := none
  needs_clarification : Bool := false
  clarification_question : Option String := none
deriving DecidableEq, Repr

/-- The review manifest (`metadata` + `entries`). -/
structure ReviewManifest where
  repo : String
  from_ref : String
  to_ref : String
  generated_at : String
  entries : List ReviewEntry
deriving DecidableEq, Repr

/-- The per-item entry construction of `build_review_manifest`. -/
def build_entry (it : Item) : ReviewEntry :=
  { sha := it.sha,
    subject := it.subject,
    author := it.author_name,
    url := it.url,
    review_status := it.review_status,
    category := it.category,
    title := it.title,
    description := it.description,
    filter_stage := it.filter_stage,
    filter_reason := it.filter_reason,
    needs_clarification := it.needs_clarification.getD false,
    clarification_question := it.clarification_question }

/-- `build_review_manifest` of `src/rn/review.py` (`generated_at` is the wall
clock timestamp, passed as a parameter here). -/
def build_review_manifest (repo_url from_ref to_ref generated_at : String)
    (items : List Item) : ReviewManifest :=
  { repo := repo_url, from_ref := from_ref, to_ref := to_ref,
    generated_at := generated_at, entries := items.map build_entry }

/-- `normalize_review_status` applied to a manifest entry dict: an entry carries
no `include` key at all (`build_review_manifest` does not copy it), so
`it.get("include")` is `None` and the unknown-include default applies whenever
the status is falsy; `needs_clarification` is a plain bool in an entry. -/
def normalize_entry (e : ReviewEntry) : ReviewEntry :=
  if truthyS e.review_status then e
  else
    let rs :=
      if e.needs_clarification then "needs_clarification"
      else
        match (none : Option Bool) with
        | some true => "included"
        | some false => "excluded"
        | none => "needs_clarification"
    { e with review_status := some rs }

/-- In an f-string, `None` prints as `"None"` (used by the renderer's internal
section, which interpolates `e.get('subject')` / `e.get('author')` directly). -/
def pyShow (o : Option String) : String :=
  match o with
  | none => "None"
  | some s => s

/-- Model of `s.lower().startswith(p)` for an ASCII prefix literal. -/
def lowerStartsWith (s p : String) : Bool :=
  plainStarts p.toList (s.toList.map Char.toLower)

/-- The part after the first `:` of `s` (`s.split(":", 1)[1]` when the split
produced two parts), `none` when `s` contains no `:`. -/
def splitOnceAfterColon (s : String) : Option String :=
  match s.toList.dropWhile (fun c => c ≠ ':') with
  | ':' :: rest => some (String.mk rest)
  | _ => none

/-- The prefix loop of `_clean_title_from_subject` (`src/rn/render.py`): the
first well-known prefix matching `type(` or `type:` wins, but only returns when
the subject actually contains a `:` (otherwise the loop continues). -/
def cleanTitleLoop (s : String) : List String → String
  | [] => s
  | p :: ps =>
    if lowerStartsWith s (p ++ "(") || lowerStartsWith s (p ++ ":") then
      match splitOnceAfterColon s with
      | some after => pyStrip after
      | none => cleanTitleLoop s ps
    else cleanTitleLoop s ps

/-- `_clean_title_from_subject` of `src/rn/render.py`. -/
def _clean_title_from_subject (subject : String) : String :=
  cleanTitleLoop (pyStrip subject) ["feat", "fix", "chore", "refactor", "misc", "ci", "test", "build"]

/-- `_fallback_description` of `src/rn/render.py`. -/
def _fallback_description (e : ReviewEntry) : String :=
  "Includes change: " ++ pyStrOr e.subject

/-- `included = [e for e in entries if e.get("review_status") == "included"]`. -/
def render_included (entries : List ReviewEntry) : List ReviewEntry :=
  entries.filter (fun e => e.review_status = some "included")

/-- `features = [e for e in included if e.get("category") == "feature"]`. -/
def render_features (entries : List ReviewEntry) : List ReviewEntry :=
  (render_included entries).filter (fun e => e.category = some "feature")

/-- `bugfixes = [e for e in included if e.get("category") == "bugfix"]`. -/
def render_bugfixes (entries : List ReviewEntry) : List ReviewEntry :=
  (render_included entries).filter (fun e => e.category = some "bugfix")

/-- `needs_clar = [e for e in entries if e.get("review_status") == "needs_clarification"]`. -/
def render_needs_clar (entries : List ReviewEntry) : List ReviewEntry :=
  entries.filter (fun e => e.review_status = some "needs_clarification")

/-- `fmt_entry` inside `render_release_notes_markdown` (`src/rn/render.py`). -/
def fmt_entry (e : ReviewEntry) : String :=
  let title0 := pyStrip (pyStrOr e.title)
  let title :=
    if title0.isEmpty then _clean_title_from_subject (pyOrDefault e.subject "Untitled change")
    else title0
  let desc0 := pyStrip (pyStrOr e.description)
  let desc := if desc0.isEmpty then _fallback_description e else desc0
  let author := pyOrDefault e.author "Unknown"
  let link := if truthyS e.url then " ([details](" ++ pyStrOr e.url ++ "))" else ""
  "- **" ++ title ++ "**" ++ link ++ "\n  - " ++ desc ++ "\n  - Author: " ++ author ++ "\n"

/-- One line of the internal "Needs clarification" section. -/
def fmt_clar_entry (e : ReviewEntry) : String :=
  "- " ++ pyShow e.subject ++ "\n  - Question: " ++
    pyOrDefault e.clarification_question "Clarification needed." ++
    "\n  - Author: " ++ pyShow e.author ++ "\n"

/-- `render_release_notes_markdown` of `src/rn/render.py`. -/
def render_release_notes_markdown (m : ReviewManifest) : String :=
  let entries := m.entries
  let lines : List String :=
    ["# Release Notes\n"]
    ++ (if !m.repo.isEmpty || !m.from_ref.isEmpty || !m.to_ref.isEmpty then
          ["_Repository: " ++ m.repo ++ "_\n",
           "_Changes: " ++ m.from_ref ++ " → " ++ m.to_ref ++ "_\n"]
        else [])
    ++ (if !m.generated_at.isEmpty then ["_Generated at: " ++ m.generated_at ++ "_\n"] else [])
    ++ ["## Features\n"]
    ++ (if (render_features entries).isEmpty then ["_No user-facing features detected._\n"]
        else (render_features entries).map fmt_entry)
    ++ ["## Bug Fixes\n"]
    ++ (if (render_bugfixes entries).isEmpty then ["_No user-facing bug fixes detected._\n"]
        else (render_bugfixes entries).map fmt_entry)
    ++ (if (render_needs_clar entries).isEmpty then []
        else ["\n---\n", "## Needs clarification (internal)\n"]
             ++ (render_needs_clar entries).map fmt_clar_entry)
  String.intercalate "\n" lines

/-- Whether a fallible computation succeeded (no exception raised). -/
def isOkE {ε α : Type} : Except ε α → Bool
  | .ok _ => true
  | .error _ => false

/-- The harvest-provided content of an item (all decision fields stripped). -/
def base_record (it : Item) : Item :=
  { sha := it.sha, subject := it.subject, body := it.body, files := it.files,
    author_name := it.author_name, author_email := it.author_email,
    author_date := it.author_date, url := it.url }

/-- An item is decided by the rules stage iff `rule_based_filter` returns a decision. -/
def is_rule_decided (it : Item) : Bool := ((rule_based_filter it).1).isSome

/-! Concrete inputs used to exercise the theorems. -/

/-- A record with the spec's version-bump subject. -/
def chore_item : Item := { subject := some "chore: bump dependency to 1.2.3" }

/-- A merge-commit record (decided by step 1 of the classifier). -/
def merge_item : Item := { subject := some "Merge pull request #42 from x/y" }

/-- A conventional feature record. -/
def feat_item : Item := { subject := some "feat(billing): add proration" }

/-- The decided item `filter_candidates` produces for `feat_item`. -/
def feat_decided : Item :=
  { subject := some "feat(billing): add proration",
    «include» := some true,
    filter_reason := some "Included as feature (conventional commit).",
    filter_stage := some "rules",
    filter_confidence := some 90,
    category := some "feature",
    filter_annotations := some
      { conventional_type := some (some "feat"), suggested_category := some "feature" } }

/-- The decided item `filter_candidates` produces for `chore_item`. -/
def chore_decided : Item :=
  { subject := some "chore: bump dependency to 1.2.3",
    «include» := some false,
    filter_reason := some "Excluded by subject pattern: \\bbump\\b",
    filter_stage := some "rules",
    filter_confidence := some 90,
    filter_annotations := some { conventional_type := some (some "chore") } }

/-- `chore_decided` after `normalize_review_status`. -/
def chore_normalized : Item :=
  { chore_decided with review_status := some "excluded" }

/-- An ambiguous record (no conventional prefix, no exclude pattern). -/
def ambiguous_item : Item :=
  { subject := some "update internal docs for api", files := some ["docs/api.md"] }

/-- The ambiguous-marked item `filter_candidates` produces for `ambiguous_item`. -/
def ambiguous_marked : Item :=
  { subject := some "update internal docs for api", files := some ["docs/api.md"],
    filter_stage := some "rules",
    filter_annotations := some
      { conventional_type := some none,
        internal_files_score := some (_soft_internal_files_score ["docs/api.md"]) } }

/-- An oracle answer that is valid for the schema yet pairs a present category
with `include=false` (nothing in `LLMDecision` forbids it). -/
def uncoupled_payload : OraclePayload :=
  { «include» := some false, category := some "feature", reason := some "internal-only change" }

/-- The item the gateway produces from `uncoupled_payload` on a fresh record. -/
def uncoupled_item : Item :=
  { «include» := some false,
    filter_stage := some "llm",
    filter_reason := some "internal-only change",
    category := some "feature",
    needs_clarification := some false,
    review_status := some "excluded" }

/-- A syntactically valid oracle answer whose title is 71 characters long. -/
def long_title_payload : OraclePayload :=
  { «include» := some true, category := some "feature",
    title := some (String.mk (List.replicate 71 'a')),
    description := some "short description",
    reason := some "user facing" }

/-- An oracle answer with the mandatory `reason` missing. -/
def no_reason_payload : OraclePayload :=
  { «include» := some true, category := some "feature", title := some "t" }

/-- An oracle stub returning a fixed payload for every record. -/
def const_oracle (p : OraclePayload) : Item → OraclePayload := fun _ => p

/-- A manifest entry whose `review_status` key is missing (unexpected schema). -/
def no_status_entry : ReviewEntry :=
  { sha := some "deadbeef", subject := some "mystery change", author := some "a" }

/-- A manifest entry marked included but carrying no category. -/
def uncategorized_included_entry : ReviewEntry :=
  { sha := some "cafebabe", subject := some "some change", author := some "a",
    review_status := some "included" }

/-! Helper lemmas. -/

/-- After normalization every item carries a truthy (non-empty) `review_status`. -/
theorem normalize_one_truthy (it : Item) :
    truthyS (normalize_one it).review_status = true := by
  unfold normalize_one
  split
  · assumption
  · dsimp only
    split
    · rfl
    · split <;> rfl

/-- An item whose `review_status` is already truthy is left untouched. -/
theorem normalize_one_skip (x : Item) (h : truthyS x.review_status = true) :
    normalize_one x = x := by
  unfold normalize_one
  rw [if_pos h]

/-- `normalize_one` is idempotent. -/
theorem normalize_one_idem (it : Item) :
    normalize_one (normalize_one it) = normalize_one it :=
  normalize_one_skip _ (normalize_one_truthy it)

theorem base_mark_decided (it : Item) (d : FilterDecision) (a : FilterAnnotations) :
    base_record (mark_decided it d a) = base_record it := rfl

theorem base_mark_ambiguous (it : Item) (a : FilterAnnotations) :
    base_record (mark_ambiguous it a) = base_record it := rfl

theorem base_normalize_one (it : Item) :
    base_record (normalize_one it) = base_record it := by
  unfold normalize_one
  split <;> rfl

/-- `filter_candidates` splits the input into its decided and ambiguous
sublists, keeping the input order inside each (stated through `base_record`,
which the per-item updates do not touch). -/
theorem filter_candidates_base (items : List Item) :
    ((filter_candidates items).1.map base_record
       = (items.filter (fun it => is_rule_decided it)).map base_record)
  ∧ ((filter_candidates items).2.map base_record
       = (items.filter (fun it => !is_rule_decided it)).map base_record) := by
  induction items with
  | nil => simp [filter_candidates]
  | cons it rest ih =>
    obtain ⟨ih1, ih2⟩ := ih
    unfold is_rule_decided
    cases h : rule_based_filter it with
    | mk dec anns =>
      cases dec with
      | none =>
        simp [filter_candidates, h, List.filter_cons, is_rule_decided, ih1, ih2,
          base_mark_ambiguous]
      | some d =>
        simp [filter_candidates, h, List.filter_cons, is_rule_decided, ih1, ih2,
          base_mark_decided]

/-- A successful oracle resolution does not change the harvested content. -/
theorem llm_decide_one_base (oracle : Item → OraclePayload) (it it2 : Item)
    (h : llm_decide_one oracle it = .ok it2) : base_record it2 = base_record it := by
  unfold llm_decide_one at h
  cases hv : model_validate (oracle it) with
  | error e => rw [hv] at h; simp [Bind.bind, Except.bind] at h
  | ok d =>
    rw [hv] at h
    simp [Bind.bind, Except.bind, Pure.pure, Except.pure] at h
    rw [← h]
    rfl

/-- A successful oracle stage maps the ambiguous items one-to-one, in order
(stated through `base_record`). -/
theorem llm_decide_ambiguous_base (oracle : Item → OraclePayload) :
    ∀ (xs l : List Item), llm_decide_ambiguous oracle xs = .ok l →
      l.map base_record = xs.map base_record := by
  intro xs
  induction xs with
  | nil =>
    intro l h
    simp [llm_decide_ambiguous, Pure.pure, Except.pure] at h
    simp [← h]
  | cons x rest ih =>
    intro l h
    unfold llm_decide_ambiguous at h
    cases h1 : llm_decide_one oracle x with
    | error e => rw [h1] at h; simp [Bind.bind, Except.bind] at h
    | ok x2 =>
      rw [h1] at h
      cases h2 : llm_decide_ambiguous oracle rest with
      | error e =>
        rw [h2] at h; simp [Bind.bind, Except.bind] at h
      | ok l2 =>
        rw [h2] at h
        simp [Bind.bind, Except.bind, Pure.pure, Except.pure] at h
        rw [← h]
        simp [llm_decide_one_base oracle x x2 h1, ih l2 h2]

/-- A payload without the mandatory `reason` never validates. -/
theorem model_validate_no_reason (p : OraclePayload) (h : p.reason = none) :
    ∃ e, model_validate p = .error e := by
  unfold model_validate
  cases hi : p.«include» with
  | none => exact ⟨_, rfl⟩
  | some inc =>
    dsimp only
    split
    · exact ⟨_, rfl⟩
    · rw [h]; exact ⟨_, rfl⟩

/-- The gateway rejects a record whose payload lacks `reason`. -/
theorem llm_decide_one_no_reason (oracle : Item → OraclePayload) (it : Item)
    (h : (oracle it).reason = none) : ∃ e, llm_decide_one oracle it = .error e := by
  obtain ⟨e, he⟩ := model_validate_no_reason (oracle it) h
  exact ⟨e, by unfold llm_decide_one; rw [he]; rfl⟩

/-- If any ambiguous item's payload lacks `reason`, the whole oracle stage raises. -/
theorem llm_decide_ambiguous_no_reason (oracle : Item → OraclePayload) :
    ∀ (xs : List Item), (∃ it ∈ xs, (oracle it).reason = none) →
      ∃ e, llm_decide_ambiguous oracle xs = .error e := by
  intro xs
  induction xs with
  | nil => rintro ⟨it, hmem, -⟩; exact absurd hmem (List.not_mem_nil it)
  | cons x rest ih =>
    rintro ⟨it, hmem, hr⟩
    rcases List.mem_cons.mp hmem with rfl | hmem2
    · obtain ⟨e, he⟩ := llm_decide_one_no_reason oracle it hr
      exact ⟨e, by unfold llm_decide_ambiguous; rw [he]; rfl⟩
    · cases h1 : llm_decide_one oracle x with
      | error e => exact ⟨e, by unfold llm_decide_ambiguous; rw [h1]; rfl⟩
      | ok x2 =>
        obtain ⟨e, he⟩ := ih ⟨it, hmem2, hr⟩
        exact ⟨e, by unfold llm_decide_ambiguous; rw [h1, he]; rfl⟩

/-- The rules stage attaches `suggested_category` only on the strong-include
branch (step 4), whose decision has `include=True`. -/
theorem rule_based_filter_suggested (it : Item) :
    ((rule_based_filter it).2).suggested_category.isSome = true →
      ∃ d, (rule_based_filter it).1 = some d ∧ d.«include» = true := by
  intro hs
  simp only [rule_based_filter] at hs ⊢
  revert hs
  split
  · intro hs; simp at hs
  · split
    · intro hs; simp at hs
    · split
      · split
        · intro hs; simp at hs
        · split
          · intro _; exact ⟨_, rfl, rfl⟩
          · intro hs; simp at hs
      · split
        · intro _; exact ⟨_, rfl, rfl⟩
        · intro hs; simp at hs

/-- Every decided output of `filter_candidates` is `mark_decided` of some input item. -/
theorem mem_filter_candidates_decided :
    ∀ (items : List Item) (d : Item), d ∈ (filter_candidates items).1 →
      ∃ it, it ∈ items ∧ ∃ fd anns,
        rule_based_filter it = (some fd, anns) ∧ d = mark_decided it fd anns := by
  intro items
  induction items with
  | nil => intro d h; simp [filter_candidates] at h
  | cons x rest ih =>
    intro d h
    cases hx : rule_based_filter x with
    | mk dec anns =>
      cases dec with
      | none =>
        simp only [filter_candidates, hx] at h
        obtain ⟨it, hm, r⟩ := ih d h
        exact ⟨it, List.mem_cons_of_mem _ hm, r⟩
      | some fd =>
        simp only [filter_candidates, hx, List.mem_cons] at h
        rcases h with rfl | h
        · exact ⟨x, List.mem_cons_self _ _, fd, anns, hx, rfl⟩
        · obtain ⟨it, hm, r⟩ := ih d h
          exact ⟨it, List.mem_cons_of_mem _ hm, r⟩

/-! Claim theorems. -/

/-- C4: every item entering the Decision Normalizer without a `review_status`
already set gets exactly one status, resolved in this order: the
`needs_clarification` flag wins (even over `include=True`); else `include=True`
gives `included`; else `include=False` gives `excluded`; else (include
unknown/`None`) `needs_clarification`; and after normalization no item is left
without a (truthy) status. -/
theorem normalize_review_status_resolution :
    (∀ it : Item, truthyS it.review_status = false →
      ((it.needs_clarification = some true →
          (normalize_one it).review_status = some "needs_clarification")
       ∧ (it.needs_clarification.getD false = false → it.«include» = some true →
          (normalize_one it).review_status = some "included")
       ∧ (it.needs_clarification.getD false = false → it.«include» = some false →
          (normalize_one it).review_status = some "excluded")
       ∧ (it.needs_clarification.getD false = false → it.«include» = none →
          (normalize_one it).review_status = some "needs_clarification")))
    ∧ (∀ (items : List Item) (it2 : Item), it2 ∈ normalize_review_status items →
        truthyS it2.review_status = true) := by
  constructor
  · intro it h
    refine ⟨?_, ?_, ?_, ?_⟩
    · intro hnc; simp [normalize_one, h, hnc]
    · intro hnc hinc; simp [normalize_one, h, hnc, hinc]
    · intro hnc hinc; simp [normalize_one, h, hnc, hinc]
    · intro hnc hinc; simp [normalize_one, h, hnc, hinc]
  · intro items it2 h
    simp only [normalize_review_status, List.mem_map] at h
    obtain ⟨x, -, rfl⟩ := h
    exact normalize_one_truthy x

/-- Witness for C4: an item with `include=True` and nothing else set is
normalized to `included`. -/
theorem normalize_review_status_resolution_witness :
    (normalize_one ({ «include» := some true } : Item)).review_status = some "included" :=
  ((normalize_review_status_resolution.1 { «include» := some true } rfl).2.1 rfl rfl)

/-- C7: the normalizer is idempotent (normalizing twice equals normalizing
once), and re-normalizing the entries of a manifest built from normalized
items changes no entry's `review_status`. -/
theorem normalize_idempotent_roundtrip :
    (∀ items : List Item,
       normalize_review_status (normalize_review_status items) = normalize_review_status items)
    ∧ (∀ (repo fr tr gen : String) (items : List Item) (e : ReviewEntry),
        e ∈ (build_review_manifest repo fr tr gen (normalize_review_status items)).entries →
        (normalize_entry e).review_status = e.review_status) := by
  constructor
  · intro items
    simp [normalize_review_status, List.map_map, Function.comp_def, normalize_one_idem]
  · intro repo fr tr gen items e he
    simp only [build_review_manifest, normalize_review_status, List.map_map,
      List.mem_map] at he
    obtain ⟨x, -, rfl⟩ := he
    simp only [Function.comp_apply]
    have ht : truthyS ((build_entry (normalize_one x)).review_status) = true :=
      normalize_one_truthy x
    unfold normalize_entry
    rw [if_pos ht]

/-- Witness for C7: concrete single-item round trip through the manifest. -/
theorem normalize_idempotent_roundtrip_witness :
    (normalize_entry (build_entry (normalize_one ({} : Item)))).review_status
      = (build_entry (normalize_one ({} : Item))).review_status :=
  normalize_idempotent_roundtrip.2 "r" "v1" "v2" "t" [({} : Item)]
    (build_entry (normalize_one ({} : Item))) (by decide)

/-- C10: a manifest entry marked `included` whose category is neither
`feature` nor `bugfix` (e.g. absent) is rendered in neither the Features nor
the Bug Fixes section. -/
theorem included_without_category_unrendered :
    ∀ (entries : List ReviewEntry) (e : ReviewEntry), e ∈ entries →
      e.review_status = some "included" →
      e.category ≠ some "feature" → e.category ≠ some "bugfix" →
      e ∉ render_features entries ∧ e ∉ render_bugfixes entries := by
  intro entries e _ _ hf hb
  constructor
  · intro hmem
    exact hf (of_decide_eq_true (List.mem_filter.mp hmem).2)
  · intro hmem
    exact hb (of_decide_eq_true (List.mem_filter.mp hmem).2)

/-- Witness for C10: a concrete included-but-uncategorized entry is absent
from both public sections. -/
theorem included_without_category_unrendered_witness :
    uncategorized_included_entry ∉ render_features [uncategorized_included_entry]
    ∧ uncategorized_included_entry ∉ render_bugfixes [uncategorized_included_entry] :=
  included_without_category_unrendered [uncategorized_included_entry]
    uncategorized_included_entry (by decide) rfl (by decide) (by decide)

/-- C3 (amended): a manifest entry with no `review_status` is not treated as
included (it reaches neither public section), but it is not surfaced as
`needs_clarification` either: the renderer drops it from every section. -/
theorem missing_review_status_dropped :
    ∀ (entries : List ReviewEntry) (e : ReviewEntry), e ∈ entries →
      e.review_status = none →
      e ∉ render_included entries ∧ e ∉ render_features entries
      ∧ e ∉ render_bugfixes entries ∧ e ∉ render_needs_clar entries := by
  intro entries e _ hrs
  have hinc : e ∉ render_included entries := by
    intro hmem
    have := of_decide_eq_true (List.mem_filter.mp hmem).2
    rw [hrs] at this
    exact Option.noConfusion this
  refine ⟨hinc, ?_, ?_, ?_⟩
  · intro hmem
    exact hinc (List.mem_filter.mp hmem).1
  · intro hmem
    exact hinc (List.mem_filter.mp hmem).1
  · intro hmem
    have := of_decide_eq_true (List.mem_filter.mp hmem).2
    rw [hrs] at this
    exact Option.noConfusion this

/-- Witness for C3 (amended): a concrete entry without `review_status` appears
in no rendered section. -/
theorem missing_review_status_dropped_witness :
    no_status_entry ∉ render_included [no_status_entry]
    ∧ no_status_entry ∉ render_features [no_status_entry]
    ∧ no_status_entry ∉ render_bugfixes [no_status_entry]
    ∧ no_status_entry ∉ render_needs_clar [no_status_entry] :=
  missing_review_status_dropped [no_status_entry] no_status_entry (by decide) rfl

/-- Counterexample for C3 as stated: the claim requires a status-less entry to
be surfaced in the internal clarification section, but the renderer's
`needs_clar` selection does not pick it up. -/
theorem missing_review_status_not_clarified :
    no_status_entry.review_status = none
    ∧ no_status_entry ∉ render_needs_clar [no_status_entry] := by
  constructor
  · rfl
  · decide

/-- C2 (amended): the gateway validates oracle output against the schema's
required fields (`include`, `reason`) and the `category` literal, and nothing
else: success is independent of `title`/`description`, so the 70/240 length
limits (present only in the prompt text) are NOT enforced — an over-long title
or description passes validation. -/
theorem model_validate_ok_characterization :
    ∀ p : OraclePayload,
      isOkE (model_validate p)
        = (p.«include».isSome && categoryLiteralOk p.category && p.reason.isSome) := by
  intro p
  unfold model_validate
  cases p.«include» with
  | none => rfl
  | some inc =>
    dsimp only
    split
    · rename_i h
      rw [Bool.not_eq_true'] at h
      simp [isOkE, h]
    · rename_i h
      rw [Bool.not_eq_true', Bool.not_eq_false] at h
      cases p.reason with
      | none => simp [isOkE, h]
      | some r => simp [isOkE, h]

/-- Counterexample for C2 as stated: a payload whose title has 71 characters
(over the documented 70 limit) validates successfully and is accepted by the
gateway into the pipeline instead of being rejected. -/
theorem long_title_accepted :
    isOkE (model_validate long_title_payload) = true
    ∧ isOkE (llm_decide_one (const_oracle long_title_payload) ({} : Item)) = true
    ∧ (long_title_payload.title.getD "").length = 71 :=
  ⟨rfl, rfl, rfl⟩

/-- C9 (amended): the version-bump subject `"chore: bump dependency to 1.2.3"`
is excluded by the rules stage with confidence 0.9 (stored as 90 hundredths),
but the hard-exclude subject pattern cited in the reason is `\bbump\b` — the
`bump` pattern precedes `^chore\b` in `DEFAULT_EXCLUDE_SUBJECT_PATTERNS`, and
`_matches_any` returns the first match. -/
theorem chore_bump_excluded_citing_bump :
    rule_based_filter chore_item =
      (some { «include» := false, reason := "Excluded by subject pattern: \\bbump\\b",
              stage := "rules", confidence := 90 },
       { conventional_type := some (some "chore") }) := by
  decide

/-- Counterexample for C9 as stated: the cited pattern is the `bump` one, not
the `chore` one. -/
theorem chore_bump_not_citing_chore :
    ((rule_based_filter chore_item).1.map FilterDecision.reason
       = some ("Excluded by subject pattern: " ++ ExcludePattern.regexText (.word "bump")))
    ∧ ((rule_based_filter chore_item).1.map FilterDecision.reason
       ≠ some ("Excluded by subject pattern: " ++ ExcludePattern.regexText (.anchored "chore"))) := by
  constructor
  · decide
  · decide

/-- C8 (amended): for every record NOT decided by the step-1 merge-commit
exclusion, the classifier stores the lower-cased conventional-commit type
(the value of `detect_type`) under the `conventional_type` annotation key
whatever the outcome; a record matching the merge pattern returns early with
the annotations dict still empty, so no `conventional_type` key is stored. -/
theorem conventional_type_recorded :
    ∀ it : Item,
      (mergeMatch (pyStrip (pyStrOr it.subject)) = false →
        (rule_based_filter it).2.conventional_type
          = some (detect_type (pyStrip (pyStrOr it.subject))))
      ∧ (mergeMatch (pyStrip (pyStrOr it.subject)) = true →
        (rule_based_filter it).2 = ({} : FilterAnnotations)) := by
  intro it
  constructor
  · intro h
    simp only [rule_based_filter, h, Bool.false_eq_true, if_false]
    split
    · rfl
    · split
      · split
        · rfl
        · split
          · rfl
          · rfl
      · split
        · rfl
        · rfl
  · intro h
    simp only [rule_based_filter, h, if_true]

/-- Witness for C8 (amended): a merge-commit record comes back with empty
annotations, and a non-merge record carries the detected type. -/
theorem conventional_type_recorded_witness :
    (rule_based_filter merge_item).2 = ({} : FilterAnnotations)
    ∧ (rule_based_filter chore_item).2.conventional_type
        = some (detect_type (pyStrip (pyStrOr chore_item.subject))) :=
  ⟨(conventional_type_recorded merge_item).2 rfl,
   (conventional_type_recorded chore_item).1 rfl⟩

/-- Counterexample for C8 as stated: the merge-commit record is decided by
step 1 and its annotations contain no `conventional_type` key at all. -/
theorem merge_commit_annotation_missing :
    (rule_based_filter merge_item).1
      = some { «include» := false, reason := "Excluded merge commit (not user-facing entry).",
               stage := "rules", confidence := 95 }
    ∧ (rule_based_filter merge_item).2.conventional_type = none := by
  constructor
  · decide
  · decide

/-- C1 (amended): the category/include coupling holds for every Decision the
rules stage produces on records that carry no pre-set category (the harvested
records never do): a decided item with a present category has `include=True`.
It is NOT enforced for validated oracle decisions: the schema accepts a
decision with a present category and `include=False`. -/
theorem category_implies_include_rules_only :
    (∀ (items : List Item), (∀ it ∈ items, it.category = none) →
       ∀ d ∈ (filter_candidates items).1, d.category.isSome = true → d.«include» = some true)
    ∧ (∃ (p : OraclePayload) (dec : LLMDecision),
        model_validate p = .ok dec ∧ dec.«include» = false ∧ dec.category = some "feature") := by
  constructor
  · intro items hcat d hd hsome
    obtain ⟨it, hmem, fd, anns, hrb, rfl⟩ := mem_filter_candidates_decided items d hd
    have hc : it.category = none := hcat it hmem
    have hcat2 : (mark_decided it fd anns).category = anns.suggested_category := by
      simp [mark_decided, pyOrS, hc, truthyS]
    rw [hcat2] at hsome
    obtain ⟨d2, hd2, hinc⟩ := rule_based_filter_suggested it (by rw [hrb]; exact hsome)
    rw [hrb] at hd2
    simp only [Option.some.injEq] at hd2
    subst hd2
    simp [mark_decided, hinc]
  · exact ⟨uncoupled_payload, _, rfl, rfl, rfl⟩

/-- Witness for C1 (amended): the conventional feature record yields a decided
item with category `feature` and `include=True`. -/
theorem category_implies_include_rules_only_witness :
    feat_decided.«include» = some true :=
  category_implies_include_rules_only.1 [feat_item] (by decide) feat_decided
    (by decide) (by decide)

/-- Counterexample for C1 as stated: a validated oracle decision with
`include=false` and a present category is accepted by the gateway, producing a
pipeline item that violates the coupling. -/
theorem validated_uncoupled_decision_accepted :
    llm_decide_one (const_oracle uncoupled_payload) ({} : Item) = .ok uncoupled_item
    ∧ uncoupled_item.category.isSome = true
    ∧ uncoupled_item.«include» = some false := by
  exact ⟨rfl, rfl, rfl⟩

/-- Normalization does not change the harvested content of any item. -/
theorem normalize_map_base (xs : List Item) :
    (normalize_review_status xs).map base_record = xs.map base_record := by
  simp [normalize_review_status, List.map_map, Function.comp_def, base_normalize_one]

/-- C5: on success the orchestrator's `all_items` is exactly the returned
`decided` list followed by the oracle-resolved list (stable concatenation),
and each of the two lists carries the input records in their original order:
stripped to their harvested content, they equal the in-order `filter` of the
input by (non-)decidability under the rules stage. -/
theorem run_pipeline_order :
    ∀ (oracle : Item → OraclePayload) (items decided ambiguous all_items : List Item),
      run_pipeline oracle items = .ok (decided, ambiguous, all_items) →
      ∃ resolved : List Item,
        all_items = decided ++ resolved
        ∧ decided.map base_record
            = (items.filter (fun it => is_rule_decided it)).map base_record
        ∧ resolved.map base_record
            = (items.filter (fun it => !is_rule_decided it)).map base_record := by
  intro oracle items decided ambiguous all_items h
  obtain ⟨hd, ha⟩ := filter_candidates_base items
  unfold run_pipeline at h
  cases hfc : filter_candidates items with
  | mk dec0 amb0 =>
    rw [hfc] at h hd ha
    dsimp only at h hd ha
    by_cases hne : amb0.isEmpty
    · have hamb : amb0 = [] := by
        cases amb0
        · rfl
        · simp [List.isEmpty] at hne
      subst hamb
      simp only [hne, if_true, Bind.bind, Except.bind, Pure.pure, Except.pure,
        Except.ok.injEq, Prod.mk.injEq] at h
      obtain ⟨h1, h2, h3⟩ := h
      refine ⟨[], ?_, ?_, ?_⟩
      · rw [← h3, ← h1]
        simp
      · rw [← h1, normalize_map_base, hd]
      · simpa using ha.symm
    · cases hllm : llm_decide_ambiguous oracle amb0 with
      | error e =>
        simp only [hne, if_false, hllm, Bind.bind, Except.bind] at h
        exact Except.noConfusion h
      | ok l =>
        simp only [hne, if_false, hllm, Bind.bind, Except.bind, Pure.pure, Except.pure,
          Except.ok.injEq, Prod.mk.injEq] at h
        obtain ⟨rfl, rfl, rfl⟩ := h
        refine ⟨normalize_review_status l, ?_, ?_, ?_⟩
        · simp [normalize_review_status]
        · rw [normalize_map_base]
          exact hd
        · rw [normalize_map_base, llm_decide_ambiguous_base oracle _ l hllm]
          exact ha

/-- Witness for C5: a one-record run (the version-bump record, decided by the
rules) returns `all_items = decided ++ []` with the orders preserved. -/
theorem run_pipeline_order_witness :
    ∃ resolved : List Item,
      [chore_normalized] = [chore_normalized] ++ resolved
      ∧ [chore_normalized].map base_record
          = ([chore_item].filter (fun it => is_rule_decided it)).map base_record
      ∧ resolved.map base_record
          = ([chore_item].filter (fun it => !is_rule_decided it)).map base_record :=
  run_pipeline_order (const_oracle {}) [chore_item] [chore_normalized] [] [chore_normalized]
    (by rfl)

/-- C6: when the oracle's payload for an escalated record is missing the
mandatory `reason`, the Escalation Gateway raises (schema validation failure),
the oracle stage produces no resolved item list at all, and the whole run
aborts with an error instead of substituting a guessed decision. -/
theorem oracle_missing_reason_aborts :
    ∀ (oracle : Item → OraclePayload) (items : List Item) (it : Item),
      it ∈ (filter_candidates items).2 → (oracle it).reason = none →
      (∃ e, llm_decide_ambiguous oracle (filter_candidates items).2 = .error e)
      ∧ (∃ e, run_pipeline oracle items = .error e) := by
  intro oracle items it hmem hr
  have h1 := llm_decide_ambiguous_no_reason oracle _ ⟨it, hmem, hr⟩
  refine ⟨h1, ?_⟩
  obtain ⟨e, he⟩ := h1
  refine ⟨e, ?_⟩
  unfold run_pipeline
  cases hfc : filter_candidates items with
  | mk dec0 amb0 =>
    rw [hfc] at hmem he
    dsimp only at hmem he ⊢
    have hne : amb0.isEmpty = false := by
      cases amb0
      · exact absurd hmem (List.not_mem_nil it)
      · rfl
    simp only [hne, Bool.false_eq_true, if_false, he, Bind.bind, Except.bind]

/-- Witness for C6: the docs-only ambiguous record with an oracle that omits
`reason` makes both the oracle stage and the whole run raise. -/
theorem oracle_missing_reason_aborts_witness :
    (∃ e, llm_decide_ambiguous (const_oracle no_reason_payload)
            (filter_candidates [ambiguous_item]).2 = .error e)
    ∧ (∃ e, run_pipeline (const_oracle no_reason_payload) [ambiguous_item] = .error e) :=
  oracle_missing_reason_aborts (const_oracle no_reason_payload) [ambiguous_item]
    ambiguous_marked (List.mem_singleton.mpr rfl) rfl

/-! Spec scenario sanity checks. -/

example : rule_based_filter { subject := some "chore: bump dependency to 1.2.3" } =
    (some ⟨false, "Excluded by subject pattern: \\bbump\\b", "rules", 90⟩,
     { conventional_type := some (some "chore") }) := by decide

example : rule_based_filter { subject := some "Merge pull request #42 from x/y" } =
    (some ⟨false, "Excluded merge commit (not user-facing entry).", "rules", 95⟩, {}) := by decide

example : rule_based_filter { subject := some "feat(billing): add proration" } =
    (some ⟨true, "Included as feature (conventional commit).", "rules", 90⟩,
     { conventional_type := some (some "feat"), suggested_category := some "feature" }) := by decide

example : rule_based_filter
      { subject := some "update internal docs for api", files := some ["docs/api.md"] } =
    (none, { conventional_type := some none,
             internal_files_score := some (_soft_internal_files_score ["docs/api.md"]) }) := rfl

end ReleaseNotes
